import Mathlib

/-!
Verification of the gitops-flask-series repository.

The repository contains a two-route Flask HTTP responder (`09/app.py`) and a
set of pytest harnesses: provisioning smoke tests that create Kubernetes
resources and read them back (`03/tests/test_smoke.py`,
`04/tests/test_smoke.py`, `gitops-flask-kubernetes/tests/test_smoke.py`),
read-only GitOps verification tests (`06/tests/test_gitops.py`,
`09/tests/test_gitops.py`) and end-to-end HTTP checks
(`03/tests/test_end_to_end.py`, `09/tests/test_end_to_end.py`).

This file shallowly embeds those components: the process environment is a
partial map from variable names to strings, the Kubernetes control plane is a
record of created resources with already-exists / not-found faults, pytest's
xunit class semantics (tests in declaration order, class-level `skipif`,
`teardown_class` looked up on the class) is a small explicit runner, and each
test function is translated call by call, recording the API calls it issues
as a trace.
-/

/-! ## Process environment (`os.getenv`) -/

/-- A process environment: a partial map from variable names to values. -/
structure Env where
  vars : String → Option String

/-- Embedding of Python `os.getenv(key, default)`. -/
def getenv (env : Env) (key dflt : String) : String :=
  (env.vars key).getD dflt

/-! ## The Flask application, `09/app.py` -/

/-- The module-level state of `09/app.py`, computed once at import:
`name = os.getenv("NAME", "service1")` and
`cluster_name = os.getenv("CLUSTER", "cluster1")`. -/
structure AppModule where
  name : String
  cluster_name : String

/-- Importing `09/app.py` in environment `env` evaluates the two
module-level `os.getenv` calls. -/
def importApp (env : Env) : AppModule :=
  { name := getenv env "NAME" "service1"
    cluster_name := getenv env "CLUSTER" "cluster1" }

/-- Handler of `@app.route('/')`: `return 'hello'`. -/
def hello (_m : AppModule) : String :=
  "hello"

/-- Handler of `@app.route('/cluster')`:
`return f'This is {name} in cluster {cluster_name}'`, reading the
module-level variables. -/
def cluster (m : AppModule) : String :=
  "This is " ++ m.name ++ " in cluster " ++ m.cluster_name

/-- An HTTP response: status code and body. -/
structure Response where
  status : Nat
  body : String
deriving DecidableEq

/-- Flask's routing for the two registered routes: a handler returning a
string yields a 200 response with that string as body; an unmatched path
yields no response from the application (Flask's default 404 handling). -/
def route (m : AppModule) : String → Option Response
  | "/" => some { status := 200, body := hello m }
  | "/cluster" => some { status := 200, body := cluster m }
  | _ => none

/-! ## The server process as a state machine (for purity/determinism)

`name` and `cluster_name` are read from the environment once at import; the
handlers reference the module variables and never write any state. We model
a running process as the imported module state plus the current (mutable)
process environment, and the operations that can happen after startup:
serving a GET request, or a change to the process environment. -/

/-- The state of a running server process: the module state captured when
the module was imported, and the current process environment. -/
structure ProcState where
  module : AppModule
  env : Env

/-- Starting the process in environment `env` imports the application. -/
def startProcess (env : Env) : ProcState :=
  { module := importApp env, env := env }

/-- An event after process start: an incoming GET request, or a change of a
process environment variable. -/
inductive ServerOp where
  | get (path : String)
  | setenv (key val : String)

/-- One step of the process. A GET request is answered by `route` applied to
the module state (the handlers in `09/app.py` read only the module-level
variables and assign nothing); a `setenv` updates the current environment but
not the already-imported module state. -/
def applyOp (p : ProcState) : ServerOp → ProcState × Option (Option Response)
  | ServerOp.get path => (p, some (route p.module path))
  | ServerOp.setenv k v =>
      ({ module := p.module
         env := { vars := fun key => if key = k then some v else p.env.vars key } },
       none)

/-- Running a list of events from a process state. -/
def runOps (p : ProcState) : List ServerOp → ProcState
  | [] => p
  | op :: rest => runOps (applyOp p op).1 rest

/-! ## The regular-expression check of `09/tests/test_end_to_end.py`

`test_cluster` asserts `re.match(r'This is (\w+) in cluster (\w+)', data)`.
`re.match` anchors the pattern at the start of the string only.  The matcher
below is this one pattern specialised: the literal `This is `, then one or
more word characters, then the literal ` in cluster `, then one or more word
characters, then anything.  Because a space is not a word character, the
backtracking of `\w+` is forced: the first group extends over word characters
exactly until the literal ` in cluster ` starts, so the greedy scan below is
equivalent to the regular expression. -/

/-- A word character of the pattern `\w` (ASCII letter, digit or underscore;
every string we instantiate this with is ASCII). -/
def isWordChar (c : Char) : Bool :=
  c.isAlphanum || c = '_'

/-- Match a literal prefix, returning the remainder of the input on
success. -/
def dropLit : List Char → List Char → Option (List Char)
  | [], rest => some rest
  | _ :: _, [] => none
  | p :: ps, c :: cs => if c = p then dropLit ps cs else none

/-- The character list of the literal `This is `. -/
def thisLit : List Char :=
  "This is ".data

/-- The character list of the literal ` in cluster `. -/
def midLit : List Char :=
  " in cluster ".data

/-- After ` in cluster `, the pattern needs at least one word character
(`(\w+)` with nothing after it: the match is not anchored at the end). -/
def matchTail : List Char → Bool
  | [] => false
  | c :: _ => isWordChar c

/-- Scan of the first `(\w+)` group after its first character: at each
position, either the literal ` in cluster ` starts here (the group must end
here, since its first character is a space) and the tail must match, or the
current character extends the group. -/
def scanMid : List Char → Bool
  | [] => false
  | c :: rest =>
    match dropLit midLit (c :: rest) with
    | some rest2 => matchTail rest2
    | none => if isWordChar c then scanMid rest else false

/-- After the literal `This is `, the first group needs at least one word
character. -/
def matchAfterThis : List Char → Bool
  | [] => false
  | c :: rest => if isWordChar c then scanMid rest else false

/-- Embedding of `re.match(r'This is (\w+) in cluster (\w+)', s)` viewed as
a boolean (the test only asserts that the match object is not `None`). -/
def reMatchCluster (s : String) : Bool :=
  match dropLit thisLit s.data with
  | some rest => matchAfterThis rest
  | none => false

/-- Embedding of Python's `in` on byte strings (`b'hello' in result.content`):
`containsSub needle hay` holds when `needle` occurs contiguously in `hay`. -/
def containsSub (needle : List Char) : List Char → Bool
  | [] => needle.isEmpty
  | c :: t => needle.isPrefixOf (c :: t) || containsSub needle t

/-! ## The Kubernetes control plane (external collaborator)

The spec treats the Kubernetes client library and the cluster as an external
collaborator.  We model the cluster as the collection of existing resources,
and the client calls used by the tests (`create_namespace`, `read_namespace`,
`create_namespaced_deployment`, ... , `delete_namespace`) with the faults the
spec names: creating an existing resource faults with already-exists, reading
a missing resource faults with not-found, and a successful read returns
metadata whose name and namespace are those the resource was created with. -/

/-- A fault raised by a cluster API call. -/
inductive ApiError where
  | alreadyExists
  | notFound
deriving DecidableEq

/-- The metadata of a resource returned by a read call: its name, and for
namespaced resources its namespace. -/
structure Metadata where
  name : String
  nspace : Option String
deriving DecidableEq

/-- The state of a cluster: the names of existing namespaces and the
(name, namespace) pairs of existing deployments, services and ingresses. -/
structure Cluster where
  namespaces : List String
  deployments : List (String × String)
  services : List (String × String)
  ingresses : List (String × String)
deriving DecidableEq

/-- `CoreV1Api.create_namespace(body)`: faults with already-exists when a
namespace of that name exists, otherwise records the namespace. -/
def create_namespace (c : Cluster) (bodyName : String) : Except ApiError Cluster :=
  if bodyName ∈ c.namespaces then Except.error ApiError.alreadyExists
  else Except.ok { c with namespaces := c.namespaces ++ [bodyName] }

/-- `CoreV1Api.read_namespace(name)`: returns the namespace's metadata, or
faults with not-found. -/
def read_namespace (c : Cluster) (n : String) : Except ApiError Metadata :=
  if n ∈ c.namespaces then Except.ok { name := n, nspace := none }
  else Except.error ApiError.notFound

/-- `AppsV1Api.create_namespaced_deployment(body, namespace)`. -/
def create_namespaced_deployment (c : Cluster) (bodyName ns : String) :
    Except ApiError Cluster :=
  if (bodyName, ns) ∈ c.deployments then Except.error ApiError.alreadyExists
  else Except.ok { c with deployments := c.deployments ++ [(bodyName, ns)] }

/-- `AppsV1Api.read_namespaced_deployment(name, namespace)`. -/
def read_namespaced_deployment (c : Cluster) (n ns : String) :
    Except ApiError Metadata :=
  if (n, ns) ∈ c.deployments then Except.ok { name := n, nspace := some ns }
  else Except.error ApiError.notFound

/-- `CoreV1Api.create_namespaced_service(body, namespace)`. -/
def create_namespaced_service (c : Cluster) (bodyName ns : String) :
    Except ApiError Cluster :=
  if (bodyName, ns) ∈ c.services then Except.error ApiError.alreadyExists
  else Except.ok { c with services := c.services ++ [(bodyName, ns)] }

/-- `CoreV1Api.read_namespaced_service(name, namespace)`. -/
def read_namespaced_service (c : Cluster) (n ns : String) :
    Except ApiError Metadata :=
  if (n, ns) ∈ c.services then Except.ok { name := n, nspace := some ns }
  else Except.error ApiError.notFound

/-- `NetworkingV1beta1Api.create_namespaced_ingress(body, namespace)`. -/
def create_namespaced_ingress (c : Cluster) (bodyName ns : String) :
    Except ApiError Cluster :=
  if (bodyName, ns) ∈ c.ingresses then Except.error ApiError.alreadyExists
  else Except.ok { c with ingresses := c.ingresses ++ [(bodyName, ns)] }

/-- `NetworkingV1beta1Api.read_namespaced_ingress(name, namespace)`. -/
def read_namespaced_ingress (c : Cluster) (n ns : String) :
    Except ApiError Metadata :=
  if (n, ns) ∈ c.ingresses then Except.ok { name := n, nspace := some ns }
  else Except.error ApiError.notFound

/-- `CoreV1Api.delete_namespace(name)`: removes the namespace, or faults
with not-found. -/
def delete_namespace (c : Cluster) (n : String) : Except ApiError Cluster :=
  if n ∈ c.namespaces then
    Except.ok { c with namespaces := c.namespaces.erase n }
  else Except.error ApiError.notFound

/-! ## Manifest fixtures

The YAML fixture files (`namespace.yaml`, `deployment.yaml`, `service.yaml`,
`ingress.yaml`) are data files of the repository; only the names they declare
matter to the tests. -/

/-- Modelled from the spec: the fixture file `namespace.yaml` (not under the
sources) declares a Namespace named `test-namespace`. -/
def namespaceManifestName : String := "test-namespace"

/-- Modelled from the spec: the fixture file `deployment.yaml` declares a
Deployment named `flask`. -/
def deploymentManifestName : String := "flask"

/-- Modelled from the spec: the fixture file `service.yaml` declares a
Service named `flask`. -/
def serviceManifestName : String := "flask"

/-- Modelled from the spec: the fixture file `ingress.yaml` declares an
Ingress named `flask`. -/
def ingressManifestName : String := "flask"

/-! ## Traces and the pytest xunit class runner -/

/-- A record of one cluster API call issued by a test, with its arguments. -/
inductive ApiCall where
  | createNamespaceCall (bodyName : String)
  | readNamespaceCall (n : String)
  | createDeploymentCall (bodyName ns : String)
  | readDeploymentCall (n ns : String)
  | createServiceCall (bodyName ns : String)
  | readServiceCall (n ns : String)
  | createIngressCall (bodyName ns : String)
  | readIngressCall (n ns : String)
  | deleteNamespaceCall (n : String)
deriving DecidableEq

/-- The pytest outcome of one test: passed, failed (an assertion mismatch or
an uncaught fault), or skipped (a `skipif` marker whose condition held). -/
inductive TestOutcome where
  | passed
  | failed
  | skipped
deriving DecidableEq

/-- A pytest test class in xunit style: the test methods in declaration
order (each takes the cluster state and returns the new state, the API calls
it issued, and its outcome), the condition of a `pytest.mark.skipif` marker
on the class (`false` when there is none), and the class's `teardown_class`
attribute when the class defines one. -/
structure TestClassModel where
  tests : List (String × (Cluster → Cluster × List ApiCall × TestOutcome))
  skipif : Bool
  teardown : Option (Cluster → Cluster × List ApiCall)

/-- Run test methods in declaration order: a failure of one test does not
prevent the later tests of the class from running. -/
def runTests (s : Cluster) :
    List (String × (Cluster → Cluster × List ApiCall × TestOutcome)) →
    Cluster × List (String × List ApiCall × TestOutcome)
  | [] => (s, [])
  | (n, f) :: rest =>
    let r := f s
    let out := runTests r.1 rest
    (out.1, (n, r.2.1, r.2.2) :: out.2)

/-- Run a test class under pytest's xunit semantics.  When the class's
`skipif` condition holds, every collected test is reported skipped without
executing its body (so it issues no API call) and `teardown_class` does not
run; otherwise the tests run in order and then `teardown_class` runs when the
class defines one.  Returns the final cluster state, the per-test results,
and the API calls issued after the tests (by the teardown). -/
def runClass (m : TestClassModel) (s : Cluster) :
    Cluster × List (String × List ApiCall × TestOutcome) × List ApiCall :=
  if m.skipif then
    (s, m.tests.map (fun p => (p.1, ([] : List ApiCall), TestOutcome.skipped)), [])
  else
    let r := runTests s m.tests
    match m.teardown with
    | some td =>
      let t := td r.1
      (t.1, r.2, t.2)
    | none => (r.1, r.2, [])

/-! ## The provisioning smoke tests

`test_smoke.py` of `03` and `04` define a class `TestSmoke` whose methods
load a manifest, issue one create call, issue one read call, and assert on
the returned metadata.  An uncaught fault of the create call aborts the rest
of the test (`failed`, the read is never issued); a fault of the read call
likewise aborts before the assertions.  The method bodies of
`test_create_namespace` and `test_create_deployment` are identical in `03`,
`04` and (for the namespace one) `gitops-flask-kubernetes`, so they are
defined once and shared by the class models. -/

/-- `TestSmoke.test_create_namespace`: load `namespace.yaml`, create the
namespace, read back `test-namespace`, assert the returned name. -/
def test_create_namespace (c : Cluster) : Cluster × List ApiCall × TestOutcome :=
  match create_namespace c namespaceManifestName with
  | Except.error _ => (c, [ApiCall.createNamespaceCall namespaceManifestName], TestOutcome.failed)
  | Except.ok c1 =>
    match read_namespace c1 "test-namespace" with
    | Except.error _ =>
      (c1, [ApiCall.createNamespaceCall namespaceManifestName,
            ApiCall.readNamespaceCall "test-namespace"], TestOutcome.failed)
    | Except.ok m =>
      (c1, [ApiCall.createNamespaceCall namespaceManifestName,
            ApiCall.readNamespaceCall "test-namespace"],
       if "test-namespace" = m.name then TestOutcome.passed else TestOutcome.failed)

/-- `TestSmoke.test_create_deployment`: load `deployment.yaml`, create the
deployment in `test-namespace`, read back `flask`, assert name and
namespace. -/
def test_create_deployment (c : Cluster) : Cluster × List ApiCall × TestOutcome :=
  match create_namespaced_deployment c deploymentManifestName "test-namespace" with
  | Except.error _ =>
    (c, [ApiCall.createDeploymentCall deploymentManifestName "test-namespace"], TestOutcome.failed)
  | Except.ok c1 =>
    match read_namespaced_deployment c1 "flask" "test-namespace" with
    | Except.error _ =>
      (c1, [ApiCall.createDeploymentCall deploymentManifestName "test-namespace",
            ApiCall.readDeploymentCall "flask" "test-namespace"], TestOutcome.failed)
    | Except.ok m =>
      (c1, [ApiCall.createDeploymentCall deploymentManifestName "test-namespace",
            ApiCall.readDeploymentCall "flask" "test-namespace"],
       if "flask" = m.name ∧ some "test-namespace" = m.nspace then TestOutcome.passed
       else TestOutcome.failed)

/-- `TestSmoke.test_create_service` (`04` only). -/
def test_create_service (c : Cluster) : Cluster × List ApiCall × TestOutcome :=
  match create_namespaced_service c serviceManifestName "test-namespace" with
  | Except.error _ =>
    (c, [ApiCall.createServiceCall serviceManifestName "test-namespace"], TestOutcome.failed)
  | Except.ok c1 =>
    match read_namespaced_service c1 "flask" "test-namespace" with
    | Except.error _ =>
      (c1, [ApiCall.createServiceCall serviceManifestName "test-namespace",
            ApiCall.readServiceCall "flask" "test-namespace"], TestOutcome.failed)
    | Except.ok m =>
      (c1, [ApiCall.createServiceCall serviceManifestName "test-namespace",
            ApiCall.readServiceCall "flask" "test-namespace"],
       if "flask" = m.name ∧ some "test-namespace" = m.nspace then TestOutcome.passed
       else TestOutcome.failed)

/-- `TestSmoke.test_create_ingress` (`04` only). -/
def test_create_ingress (c : Cluster) : Cluster × List ApiCall × TestOutcome :=
  match create_namespaced_ingress c ingressManifestName "test-namespace" with
  | Except.error _ =>
    (c, [ApiCall.createIngressCall ingressManifestName "test-namespace"], TestOutcome.failed)
  | Except.ok c1 =>
    match read_namespaced_ingress c1 "flask" "test-namespace" with
    | Except.error _ =>
      (c1, [ApiCall.createIngressCall ingressManifestName "test-namespace",
            ApiCall.readIngressCall "flask" "test-namespace"], TestOutcome.failed)
    | Except.ok m =>
      (c1, [ApiCall.createIngressCall ingressManifestName "test-namespace",
            ApiCall.readIngressCall "flask" "test-namespace"],
       if "flask" = m.name ∧ some "test-namespace" = m.nspace then TestOutcome.passed
       else TestOutcome.failed)

/-- `TestSmoke.teardown_class` of `03` and `04`:
`self.core_v1.delete_namespace(name="test-namespace")` — a single call, no
retry, no wait for completion (a fault of the delete is reported by pytest
but the run is over either way). -/
def teardown_class_smoke (c : Cluster) : Cluster × List ApiCall :=
  (match delete_namespace c "test-namespace" with
   | Except.ok c1 => c1
   | Except.error _ => c,
   [ApiCall.deleteNamespaceCall "test-namespace"])

/-- The class `TestSmoke` of `04/tests/test_smoke.py`: four tests in
declaration order and a `teardown_class` method. -/
def smoke04Class : TestClassModel :=
  { tests := [("test_create_namespace", test_create_namespace),
              ("test_create_deployment", test_create_deployment),
              ("test_create_service", test_create_service),
              ("test_create_ingress", test_create_ingress)]
    skipif := false
    teardown := some teardown_class_smoke }

/-- The class `TestSmoke` of `03/tests/test_smoke.py`: namespace and
deployment tests and a `teardown_class` method. -/
def smoke03Class : TestClassModel :=
  { tests := [("test_create_namespace", test_create_namespace),
              ("test_create_deployment", test_create_deployment)]
    skipif := false
    teardown := some teardown_class_smoke }

/-- The class `TestSmoke` of `gitops-flask-kubernetes/tests/test_smoke.py`.
In that file the `def teardown_class(self):` line sits at column 0, outside
the class body (only its own body is indented), so the class itself has no
`teardown_class` attribute; pytest's xunit teardown is looked up on the test
class, hence no teardown runs for this class. -/
def smokeGFClass : TestClassModel :=
  { tests := [("test_create_namespace", test_create_namespace)]
    skipif := false
    teardown := none }

/-! ## The GitOps verification tests, `09/tests/test_gitops.py`

Read-only checks.  `conftest.py` of `08`/`09` stores the parsed command-line
options in a module-level `option`; `test_gitops.py` reads
`option.context` (the value of `--context`, `None` when not given), loads the
kube config for that context, and marks the class `TestGitOpsConditional`
with `pytest.mark.skipif(option.context in ("kind-cluster2", "kind-cluster3"), ...)`. -/

/-- The `skipif` condition of `TestGitOpsConditional`:
`option.context in ("kind-cluster2", "kind-cluster3")`.  `option.context` is
`None` when `--context` was not passed, and `None` is not an element of the
tuple. -/
def skipifCondition (context : Option String) : Bool :=
  match context with
  | some s => s = "kind-cluster2" || s = "kind-cluster3"
  | none => false

/-- `TestGitOps.test_flask_application_namespace`: one read, assert the
name. -/
def test_flask_application_namespace (c : Cluster) :
    Cluster × List ApiCall × TestOutcome :=
  (c, [ApiCall.readNamespaceCall "test-namespace"],
   match read_namespace c "test-namespace" with
   | Except.error _ => TestOutcome.failed
   | Except.ok m => if "test-namespace" = m.name then TestOutcome.passed else TestOutcome.failed)

/-- `TestGitOps.test_flask_application_deployment`. -/
def test_flask_application_deployment (c : Cluster) :
    Cluster × List ApiCall × TestOutcome :=
  (c, [ApiCall.readDeploymentCall "flask" "test-namespace"],
   match read_namespaced_deployment c "flask" "test-namespace" with
   | Except.error _ => TestOutcome.failed
   | Except.ok m =>
     if "flask" = m.name ∧ some "test-namespace" = m.nspace then TestOutcome.passed
     else TestOutcome.failed)

/-- `TestGitOps.test_flask_application_service`. -/
def test_flask_application_service (c : Cluster) :
    Cluster × List ApiCall × TestOutcome :=
  (c, [ApiCall.readServiceCall "flask" "test-namespace"],
   match read_namespaced_service c "flask" "test-namespace" with
   | Except.error _ => TestOutcome.failed
   | Except.ok m =>
     if "flask" = m.name ∧ some "test-namespace" = m.nspace then TestOutcome.passed
     else TestOutcome.failed)

/-- `TestGitOps.test_flask_application_ingress`. -/
def test_flask_application_ingress (c : Cluster) :
    Cluster × List ApiCall × TestOutcome :=
  (c, [ApiCall.readIngressCall "flask" "test-namespace"],
   match read_namespaced_ingress c "flask" "test-namespace" with
   | Except.error _ => TestOutcome.failed
   | Except.ok m =>
     if "flask" = m.name ∧ some "test-namespace" = m.nspace then TestOutcome.passed
     else TestOutcome.failed)

/-- `TestGitOpsConditional.test_flask_internal_application_deployment`. -/
def test_flask_internal_application_deployment (c : Cluster) :
    Cluster × List ApiCall × TestOutcome :=
  (c, [ApiCall.readDeploymentCall "flask-internal" "test-namespace"],
   match read_namespaced_deployment c "flask-internal" "test-namespace" with
   | Except.error _ => TestOutcome.failed
   | Except.ok m =>
     if "flask-internal" = m.name ∧ some "test-namespace" = m.nspace then TestOutcome.passed
     else TestOutcome.failed)

/-- `TestGitOpsConditional.test_flask_internal_application_service`. -/
def test_flask_internal_application_service (c : Cluster) :
    Cluster × List ApiCall × TestOutcome :=
  (c, [ApiCall.readServiceCall "flask-internal" "test-namespace"],
   match read_namespaced_service c "flask-internal" "test-namespace" with
   | Except.error _ => TestOutcome.failed
   | Except.ok m =>
     if "flask-internal" = m.name ∧ some "test-namespace" = m.nspace then TestOutcome.passed
     else TestOutcome.failed)

/-- `TestGitOpsConditional.test_flask_service2_application_namespace`. -/
def test_flask_service2_application_namespace (c : Cluster) :
    Cluster × List ApiCall × TestOutcome :=
  (c, [ApiCall.readNamespaceCall "service2"],
   match read_namespace c "service2" with
   | Except.error _ => TestOutcome.failed
   | Except.ok m => if "service2" = m.name then TestOutcome.passed else TestOutcome.failed)

/-- `TestGitOpsConditional.test_flask_service2_application_deployment`. -/
def test_flask_service2_application_deployment (c : Cluster) :
    Cluster × List ApiCall × TestOutcome :=
  (c, [ApiCall.readDeploymentCall "flask-different-namespace" "service2"],
   match read_namespaced_deployment c "flask-different-namespace" "service2" with
   | Except.error _ => TestOutcome.failed
   | Except.ok m =>
     if "flask-different-namespace" = m.name ∧ some "service2" = m.nspace then TestOutcome.passed
     else TestOutcome.failed)

/-- `TestGitOpsConditional.test_flask_service2_application_service`. -/
def test_flask_service2_application_service (c : Cluster) :
    Cluster × List ApiCall × TestOutcome :=
  (c, [ApiCall.readServiceCall "flask-different-namespace" "service2"],
   match read_namespaced_service c "flask-different-namespace" "service2" with
   | Except.error _ => TestOutcome.failed
   | Except.ok m =>
     if "flask-different-namespace" = m.name ∧ some "service2" = m.nspace then TestOutcome.passed
     else TestOutcome.failed)

/-- The class `TestGitOps` of `09/tests/test_gitops.py`: no marker, no
teardown. -/
def gitOpsClass : TestClassModel :=
  { tests := [("test_flask_application_namespace", test_flask_application_namespace),
              ("test_flask_application_deployment", test_flask_application_deployment),
              ("test_flask_application_service", test_flask_application_service),
              ("test_flask_application_ingress", test_flask_application_ingress)]
    skipif := false
    teardown := none }

/-- The class `TestGitOpsConditional` of `09/tests/test_gitops.py`, whose
`skipif` marker condition depends on the `--context` option. -/
def gitOpsConditionalClass (context : Option String) : TestClassModel :=
  { tests := [("test_flask_internal_application_deployment", test_flask_internal_application_deployment),
              ("test_flask_internal_application_service", test_flask_internal_application_service),
              ("test_flask_service2_application_namespace", test_flask_service2_application_namespace),
              ("test_flask_service2_application_deployment", test_flask_service2_application_deployment),
              ("test_flask_service2_application_service", test_flask_service2_application_service)]
    skipif := skipifCondition context
    teardown := none }

/-! ## The end-to-end HTTP checks

`test_end_to_end.py` issues plain `requests.get` calls against an endpoint
given by the `--endpoint` option.  The network is an external collaborator:
a function from a URL to either a connection fault or a response body.  Each
test issues its single request and asserts on the single response; a
connection fault is an uncaught exception failing the test, with no second
attempt. -/

/-- A fault of `requests.get` (the endpoint is unreachable). -/
inductive ConnError where
  | connectionError
deriving DecidableEq

/-- A successful HTTP response as seen by `requests`: its body. -/
structure HttpResult where
  content : String
deriving DecidableEq

/-- The network: what one `requests.get(url)` does for each URL. -/
def Net : Type := String → Except ConnError HttpResult

/-- `test_index(endpoint)` of `09/tests/test_end_to_end.py` (and, with
`"http://{}/".format(endpoint)` in place of the f-string, of `03`): one GET
of `http://{endpoint}/`, assert `b'hello' in result.content`.  Returns the
list of URLs requested and the outcome. -/
def test_index (endpoint : String) (net : Net) : List String × TestOutcome :=
  let url := "http://" ++ endpoint ++ "/"
  match net url with
  | Except.error _ => ([url], TestOutcome.failed)
  | Except.ok r =>
    ([url], if containsSub "hello".data r.content.data then TestOutcome.passed
            else TestOutcome.failed)

/-- `test_cluster(endpoint)` of `09/tests/test_end_to_end.py`: one GET of
`http://{endpoint}/cluster`, assert the regular-expression match. -/
def test_cluster (endpoint : String) (net : Net) : List String × TestOutcome :=
  let url := "http://" ++ endpoint ++ "/cluster"
  match net url with
  | Except.error _ => ([url], TestOutcome.failed)
  | Except.ok r =>
    ([url], if reMatchCluster r.content then TestOutcome.passed else TestOutcome.failed)

/-! ## Concrete inputs used to instantiate the theorems -/

/-- The empty environment: `NAME` and `CLUSTER` (and everything else)
unset. -/
def emptyEnv : Env :=
  { vars := fun _ => none }

/-- An environment with `NAME` and `CLUSTER` set to the given values. -/
def envNC (n c : String) : Env :=
  { vars := fun k => if k = "NAME" then some n else if k = "CLUSTER" then some c else none }

/-- A cluster with no resources. -/
def emptyCluster : Cluster :=
  { namespaces := [], deployments := [], services := [], ingresses := [] }

/-- A cluster in which only the namespace `test-namespace` exists. -/
def nsOnlyCluster : Cluster :=
  { namespaces := ["test-namespace"], deployments := [], services := [], ingresses := [] }

/-- A network on which every request faults: the endpoint is unreachable. -/
def netUnreachable : Net :=
  fun _ => Except.error ConnError.connectionError

/-! # Theorems -/

/-! ## Generic lemmas about the embedding -/

lemma applyOp_module (p : ProcState) (op : ServerOp) : (applyOp p op).1.module = p.module := by
  cases op <;> rfl

lemma runOps_module (p : ProcState) (ops : List ServerOp) :
    (runOps p ops).module = p.module := by
  induction ops generalizing p with
  | nil => rfl
  | cons op rest ih => rw [runOps, ih, applyOp_module]

lemma dropLit_append (lit rest : List Char) : dropLit lit (lit ++ rest) = some rest := by
  induction lit with
  | nil => rfl
  | cons p ps ih => simp [dropLit, ih]

lemma midLit_cons : midLit = ' ' :: "in cluster ".data := rfl

lemma dropLit_midLit_word {ch : Char} (h : isWordChar ch = true) (l : List Char) :
    dropLit midLit (ch :: l) = none := by
  have hne : ch ≠ ' ' := by
    intro he
    rw [he] at h
    exact absurd h (by decide)
  rw [midLit_cons]
  simp [dropLit, hne]

lemma matchTail_cons_word {ch : Char} (h : isWordChar ch = true) (l : List Char) :
    matchTail (ch :: l) = true := by
  simp [matchTail, h]

lemma scanMid_word_append (w : List Char) (hw : ∀ ch ∈ w, isWordChar ch = true)
    (c1 : Char) (hc1 : isWordChar c1 = true) (tail : List Char) :
    scanMid (w ++ (midLit ++ c1 :: tail)) = true := by
  induction w with
  | nil =>
    exact matchTail_cons_word hc1 tail
  | cons ch w' ih =>
    have hch : isWordChar ch = true := hw ch (List.mem_cons_self _ _)
    have hw' : ∀ x ∈ w', isWordChar x = true := fun x hx => hw x (List.mem_cons_of_mem ch hx)
    have key : scanMid (ch :: (w' ++ (midLit ++ c1 :: tail))) = true := by
      simp only [scanMid, dropLit_midLit_word hch, hch]
      simpa using ih hw'
    exact key

lemma reMatchCluster_append (n c : String) (hn : n.data ≠ [])
    (hwn : ∀ ch ∈ n.data, isWordChar ch = true)
    (hc : c.data ≠ []) (hwc : ∀ ch ∈ c.data, isWordChar ch = true) :
    reMatchCluster ("This is " ++ n ++ " in cluster " ++ c) = true := by
  have hdata : ("This is " ++ n ++ " in cluster " ++ c).data
      = thisLit ++ (n.data ++ (midLit ++ c.data)) := by
    simp [String.data_append, thisLit, midLit]
  unfold reMatchCluster
  rw [hdata, dropLit_append]
  cases hnd : n.data with
  | nil => exact absurd hnd hn
  | cons n1 nrest =>
    cases hcd : c.data with
    | nil => exact absurd hcd hc
    | cons ch1 crest =>
      have hn1 : isWordChar n1 = true := by
        refine hwn n1 ?_
        rw [hnd]; exact List.mem_cons_self _ _
      have hch1 : isWordChar ch1 = true := by
        refine hwc ch1 ?_
        rw [hcd]; exact List.mem_cons_self _ _
      have hnrest : ∀ x ∈ nrest, isWordChar x = true := by
        intro x hx
        refine hwn x ?_
        rw [hnd]; exact List.mem_cons_of_mem n1 hx
      have key : matchAfterThis (n1 :: (nrest ++ (midLit ++ ch1 :: crest))) = true := by
        simp only [matchAfterThis, hn1]
        simpa using scanMid_word_append nrest hnrest ch1 hch1 crest
      exact key

/-! ## C1: default identity of `GET /cluster` -/

/-- C1: for every environment in which `NAME` and `CLUSTER` are both unset,
`GET /cluster` returns status 200 with body exactly
`This is service1 in cluster cluster1`. -/
theorem claim_c1_cluster_route_default_identity (env : Env)
    (h1 : env.vars "NAME" = none) (h2 : env.vars "CLUSTER" = none) :
    route (importApp env) "/cluster"
      = some { status := 200, body := "This is service1 in cluster cluster1" } := by
  have hm : importApp env = { name := "service1", cluster_name := "cluster1" } := by
    simp [importApp, getenv, h1, h2]
  rw [hm]
  rfl

/-- Witness for C1 at the concrete empty environment. -/
theorem claim_c1_witness :
    emptyEnv.vars "NAME" = none ∧ emptyEnv.vars "CLUSTER" = none ∧
    route (importApp emptyEnv) "/cluster"
      = some { status := 200, body := "This is service1 in cluster cluster1" } :=
  ⟨rfl, rfl, claim_c1_cluster_route_default_identity emptyEnv rfl rfl⟩

/-! ## C2: the cluster-identity regular expression

The claim quantifies over all non-empty environment values.  It fails: with
`NAME` set to the non-empty string `-`, the body is
`This is - in cluster c`, and `-` is not a word character, so
`re.match(r'This is (\w+) in cluster (\w+)', ...)` does not match.  The
amended claim restricts the values to non-empty strings of word
characters. -/

/-- C2, counterexample: in the environment with `NAME=-` and `CLUSTER=c`
(both non-empty), `GET /cluster` returns the body `This is - in cluster c`,
which the anchored pattern `This is (\w+) in cluster (\w+)` does not
match. -/
theorem claim_c2_counterexample :
    (envNC "-" "c").vars "NAME" = some "-" ∧ (envNC "-" "c").vars "CLUSTER" = some "c" ∧
    "-" ≠ "" ∧ "c" ≠ "" ∧
    route (importApp (envNC "-" "c")) "/cluster"
      = some { status := 200, body := "This is - in cluster c" } ∧
    reMatchCluster "This is - in cluster c" = false :=
  ⟨rfl, rfl, by decide, by decide, rfl, by decide⟩

/-- C2, amended: for every pair of non-empty values of `NAME` and `CLUSTER`
consisting of word characters only, the body returned by `GET /cluster`
matches the regular expression `This is (\w+) in cluster (\w+)` anchored at
the start of the body. -/
theorem claim_c2_amended_wordchar_match (env : Env) (n c : String)
    (hn : env.vars "NAME" = some n) (hc : env.vars "CLUSTER" = some c)
    (hnne : n.data ≠ []) (hnw : ∀ ch ∈ n.data, isWordChar ch = true)
    (hcne : c.data ≠ []) (hcw : ∀ ch ∈ c.data, isWordChar ch = true) :
    ∃ r, route (importApp env) "/cluster" = some r ∧ r.status = 200 ∧
      reMatchCluster r.body = true := by
  have hm : importApp env = { name := n, cluster_name := c } := by
    simp [importApp, getenv, hn, hc]
  refine ⟨{ status := 200, body := cluster { name := n, cluster_name := c } }, ?_, rfl, ?_⟩
  · rw [hm]
    exact rfl
  · exact reMatchCluster_append n c hnne hnw hcne hcw

/-- Witness for the amended C2 at the concrete environment with `NAME=foo`
and `CLUSTER=bar`. -/
theorem claim_c2_witness :
    (envNC "foo" "bar").vars "NAME" = some "foo" ∧
    (envNC "foo" "bar").vars "CLUSTER" = some "bar" ∧
    "foo".data ≠ [] ∧ (∀ ch ∈ "foo".data, isWordChar ch = true) ∧
    "bar".data ≠ [] ∧ (∀ ch ∈ "bar".data, isWordChar ch = true) ∧
    (∃ r, route (importApp (envNC "foo" "bar")) "/cluster" = some r ∧ r.status = 200 ∧
      reMatchCluster r.body = true) :=
  ⟨rfl, rfl, by decide, by decide, by decide, by decide,
   claim_c2_amended_wordchar_match (envNC "foo" "bar") "foo" "bar" rfl rfl
     (by decide) (by decide) (by decide) (by decide)⟩

/-! ## C6: `GET /` -/

/-- C6: for every environment configuration, `GET /` returns status 200 with
a body containing the substring `hello`. -/
theorem claim_c6_index_route_hello (env : Env) :
    ∃ r, route (importApp env) "/" = some r ∧ r.status = 200 ∧
      containsSub "hello".data r.body.data = true :=
  ⟨{ status := 200, body := "hello" }, rfl, rfl, by decide⟩

/-! ## C8: purity and determinism of the responder -/

/-- C8: the responder is pure and deterministic.  The identity pair is read
from the environment once at process start; serving a GET request does not
change the process state, and the response to a GET of a path is
`route` of the module state captured at startup — the same after any two
histories of requests and of environment changes made after startup. -/
theorem claim_c8_responder_pure_deterministic (env0 : Env)
    (ops1 ops2 : List ServerOp) (path : String) :
    (applyOp (runOps (startProcess env0) ops1) (ServerOp.get path)).1
        = runOps (startProcess env0) ops1
    ∧ (applyOp (runOps (startProcess env0) ops1) (ServerOp.get path)).2
        = some (route (importApp env0) path)
    ∧ (applyOp (runOps (startProcess env0) ops1) (ServerOp.get path)).2
        = (applyOp (runOps (startProcess env0) ops2) (ServerOp.get path)).2 := by
  have h1 : ∀ ops : List ServerOp,
      (applyOp (runOps (startProcess env0) ops) (ServerOp.get path)).2
        = some (route (importApp env0) path) := by
    intro ops
    simp only [applyOp, runOps_module]
    rfl
  exact ⟨rfl, h1 ops1, (h1 ops1).trans (h1 ops2).symm⟩

/-! ## C3 and C10: the conditional GitOps assertion group -/

/-- C3: in verification-only mode with context `kind-cluster2`, none of the
five tests of `TestGitOpsConditional` is executed: each is reported skipped
with no API call issued, while the four tests of the unconditional
`TestGitOps` group still run (each issues its read call), whatever the
cluster contains. -/
theorem claim_c3_conditional_group_skipped_on_cluster2 (c : Cluster) :
    runClass (gitOpsConditionalClass (some "kind-cluster2")) c
      = (c, [("test_flask_internal_application_deployment", [], TestOutcome.skipped),
             ("test_flask_internal_application_service", [], TestOutcome.skipped),
             ("test_flask_service2_application_namespace", [], TestOutcome.skipped),
             ("test_flask_service2_application_deployment", [], TestOutcome.skipped),
             ("test_flask_service2_application_service", [], TestOutcome.skipped)], [])
    ∧ (runClass gitOpsClass c).2.1.map (fun e => (e.1, e.2.1))
      = [("test_flask_application_namespace", [ApiCall.readNamespaceCall "test-namespace"]),
         ("test_flask_application_deployment", [ApiCall.readDeploymentCall "flask" "test-namespace"]),
         ("test_flask_application_service", [ApiCall.readServiceCall "flask" "test-namespace"]),
         ("test_flask_application_ingress", [ApiCall.readIngressCall "flask" "test-namespace"])] :=
  ⟨rfl, rfl⟩

/-- C10: the denylist of the conditional group is exactly
`{kind-cluster2, kind-cluster3}`.  The group is skipped entirely at context
`kind-cluster3`; for every context whose `skipif` condition is false
(everything except the two denylisted names, including `kind-cluster1` and an
unset context, by the first conjunct) all five conditional tests execute and
issue their reads; and the unconditional group executes for every context
value. -/
theorem claim_c10_denylist_exact (context : Option String) (c : Cluster) :
    (skipifCondition context = true
      ↔ (context = some "kind-cluster2" ∨ context = some "kind-cluster3"))
    ∧ runClass (gitOpsConditionalClass (some "kind-cluster3")) c
      = (c, [("test_flask_internal_application_deployment", [], TestOutcome.skipped),
             ("test_flask_internal_application_service", [], TestOutcome.skipped),
             ("test_flask_service2_application_namespace", [], TestOutcome.skipped),
             ("test_flask_service2_application_deployment", [], TestOutcome.skipped),
             ("test_flask_service2_application_service", [], TestOutcome.skipped)], [])
    ∧ (runClass (gitOpsConditionalClass context) c).2.1.map (fun e => (e.1, e.2.1))
      = (if skipifCondition context then
          [("test_flask_internal_application_deployment", ([] : List ApiCall)),
           ("test_flask_internal_application_service", []),
           ("test_flask_service2_application_namespace", []),
           ("test_flask_service2_application_deployment", []),
           ("test_flask_service2_application_service", [])]
         else
          [("test_flask_internal_application_deployment",
            [ApiCall.readDeploymentCall "flask-internal" "test-namespace"]),
           ("test_flask_internal_application_service",
            [ApiCall.readServiceCall "flask-internal" "test-namespace"]),
           ("test_flask_service2_application_namespace",
            [ApiCall.readNamespaceCall "service2"]),
           ("test_flask_service2_application_deployment",
            [ApiCall.readDeploymentCall "flask-different-namespace" "service2"]),
           ("test_flask_service2_application_service",
            [ApiCall.readServiceCall "flask-different-namespace" "service2"])])
    ∧ (runClass gitOpsClass c).2.1.map (fun e => (e.1, e.2.1))
      = [("test_flask_application_namespace", [ApiCall.readNamespaceCall "test-namespace"]),
         ("test_flask_application_deployment", [ApiCall.readDeploymentCall "flask" "test-namespace"]),
         ("test_flask_application_service", [ApiCall.readServiceCall "flask" "test-namespace"]),
         ("test_flask_application_ingress", [ApiCall.readIngressCall "flask" "test-namespace"])] := by
  refine ⟨?_, rfl, ?_, rfl⟩
  · cases context with
    | none => simp [skipifCondition]
    | some s => simp [skipifCondition]
  · cases hsk : skipifCondition context with
    | true => simp [runClass, gitOpsConditionalClass, hsk]
    | false => simp [runClass, gitOpsConditionalClass, hsk, runTests,
        test_flask_internal_application_deployment, test_flask_internal_application_service,
        test_flask_service2_application_namespace, test_flask_service2_application_deployment,
        test_flask_service2_application_service]

/-! ## C7: teardown behaviour of the provisioning variants -/

/-- C7: after the tests of `TestSmoke` complete, the `04` and `03` variants'
`teardown_class` issues exactly one `delete_namespace("test-namespace")`
call (no retry); but in the `gitops-flask-kubernetes` variant the
`teardown_class` function sits outside the class, is never invoked by
pytest, and no delete call is issued after the tests. -/
theorem claim_c7_teardown_delete_calls (c : Cluster) :
    (runClass smoke04Class c).2.2 = [ApiCall.deleteNamespaceCall "test-namespace"]
    ∧ (runClass smoke03Class c).2.2 = [ApiCall.deleteNamespaceCall "test-namespace"]
    ∧ (runClass smokeGFClass c).2.2 = [] :=
  ⟨rfl, rfl, rfl⟩

/-! ## C9: end-to-end checks are a single attempt -/

/-- C9: each end-to-end check issues exactly one GET request (to
`http://E/` for the index check, to `http://E/cluster` for the cluster
check); when the single request faults, the check fails with no second
attempt; when it succeeds, the outcome is the assertion on the single
response. -/
theorem claim_c9_e2e_single_request (endpoint : String) (net : Net) :
    (test_index endpoint net).1 = ["http://" ++ endpoint ++ "/"]
    ∧ (test_cluster endpoint net).1 = ["http://" ++ endpoint ++ "/cluster"]
    ∧ (∀ e, net ("http://" ++ endpoint ++ "/") = Except.error e →
        (test_index endpoint net).2 = TestOutcome.failed)
    ∧ (∀ e, net ("http://" ++ endpoint ++ "/cluster") = Except.error e →
        (test_cluster endpoint net).2 = TestOutcome.failed)
    ∧ (∀ r, net ("http://" ++ endpoint ++ "/") = Except.ok r →
        (test_index endpoint net).2
          = (if containsSub "hello".data r.content.data then TestOutcome.passed
             else TestOutcome.failed))
    ∧ (∀ r, net ("http://" ++ endpoint ++ "/cluster") = Except.ok r →
        (test_cluster endpoint net).2
          = (if reMatchCluster r.content then TestOutcome.passed
             else TestOutcome.failed)) := by
  refine ⟨?_, ?_, ?_, ?_, ?_, ?_⟩
  · rcases hn : net ("http://" ++ endpoint ++ "/") with e | r <;>
      simp [test_index, hn]
  · rcases hn : net ("http://" ++ endpoint ++ "/cluster") with e | r <;>
      simp [test_cluster, hn]
  · intro e he
    simp [test_index, he]
  · intro e he
    simp [test_cluster, he]
  · intro r hr
    simp [test_index, hr]
  · intro r hr
    simp [test_cluster, hr]

/-- Witness for C9 at a concrete endpoint and the unreachable network. -/
theorem claim_c9_witness :
    (test_index "10.0.0.1" netUnreachable).1 = ["http://" ++ "10.0.0.1" ++ "/"]
    ∧ (test_cluster "10.0.0.1" netUnreachable).1 = ["http://" ++ "10.0.0.1" ++ "/cluster"]
    ∧ (∀ e, netUnreachable ("http://" ++ "10.0.0.1" ++ "/") = Except.error e →
        (test_index "10.0.0.1" netUnreachable).2 = TestOutcome.failed)
    ∧ (∀ e, netUnreachable ("http://" ++ "10.0.0.1" ++ "/cluster") = Except.error e →
        (test_cluster "10.0.0.1" netUnreachable).2 = TestOutcome.failed)
    ∧ (∀ r, netUnreachable ("http://" ++ "10.0.0.1" ++ "/") = Except.ok r →
        (test_index "10.0.0.1" netUnreachable).2
          = (if containsSub "hello".data r.content.data then TestOutcome.passed
             else TestOutcome.failed))
    ∧ (∀ r, netUnreachable ("http://" ++ "10.0.0.1" ++ "/cluster") = Except.ok r →
        (test_cluster "10.0.0.1" netUnreachable).2
          = (if reMatchCluster r.content then TestOutcome.passed
             else TestOutcome.failed)) :=
  claim_c9_e2e_single_request "10.0.0.1" netUnreachable

/-! ## C4: the provisioning harness, order of operations and assertions -/

/-- C4: on a cluster on which none of the four resources exists yet, the
`04` smoke harness processes the kinds in the order namespace, deployment,
service, ingress; each test issues one create call with the manifest's name
followed by one read call for the same resource, and passes its assertions
(the returned name is `test-namespace` for the namespace and `flask` for the
namespaced kinds, with namespace `test-namespace`). -/
theorem claim_c4_smoke_order_and_asserts (c : Cluster)
    (h1 : "test-namespace" ∉ c.namespaces)
    (h2 : ("flask", "test-namespace") ∉ c.deployments)
    (h3 : ("flask", "test-namespace") ∉ c.services)
    (h4 : ("flask", "test-namespace") ∉ c.ingresses) :
    (runClass smoke04Class c).2.1
      = [("test_create_namespace",
          [ApiCall.createNamespaceCall "test-namespace",
           ApiCall.readNamespaceCall "test-namespace"], TestOutcome.passed),
         ("test_create_deployment",
          [ApiCall.createDeploymentCall "flask" "test-namespace",
           ApiCall.readDeploymentCall "flask" "test-namespace"], TestOutcome.passed),
         ("test_create_service",
          [ApiCall.createServiceCall "flask" "test-namespace",
           ApiCall.readServiceCall "flask" "test-namespace"], TestOutcome.passed),
         ("test_create_ingress",
          [ApiCall.createIngressCall "flask" "test-namespace",
           ApiCall.readIngressCall "flask" "test-namespace"], TestOutcome.passed)] := by
  simp [runClass, smoke04Class, runTests,
    test_create_namespace, test_create_deployment, test_create_service, test_create_ingress,
    create_namespace, read_namespace,
    create_namespaced_deployment, read_namespaced_deployment,
    create_namespaced_service, read_namespaced_service,
    create_namespaced_ingress, read_namespaced_ingress,
    namespaceManifestName, deploymentManifestName, serviceManifestName, ingressManifestName,
    h1, h2, h3, h4]

/-- Witness for C4 at the empty cluster. -/
theorem claim_c4_witness :
    "test-namespace" ∉ emptyCluster.namespaces
    ∧ ("flask", "test-namespace") ∉ emptyCluster.deployments
    ∧ ("flask", "test-namespace") ∉ emptyCluster.services
    ∧ ("flask", "test-namespace") ∉ emptyCluster.ingresses
    ∧ (runClass smoke04Class emptyCluster).2.1
      = [("test_create_namespace",
          [ApiCall.createNamespaceCall "test-namespace",
           ApiCall.readNamespaceCall "test-namespace"], TestOutcome.passed),
         ("test_create_deployment",
          [ApiCall.createDeploymentCall "flask" "test-namespace",
           ApiCall.readDeploymentCall "flask" "test-namespace"], TestOutcome.passed),
         ("test_create_service",
          [ApiCall.createServiceCall "flask" "test-namespace",
           ApiCall.readServiceCall "flask" "test-namespace"], TestOutcome.passed),
         ("test_create_ingress",
          [ApiCall.createIngressCall "flask" "test-namespace",
           ApiCall.readIngressCall "flask" "test-namespace"], TestOutcome.passed)] :=
  ⟨by decide, by decide, by decide, by decide,
   claim_c4_smoke_order_and_asserts emptyCluster (by decide) (by decide) (by decide) (by decide)⟩

/-! ## C5: an already-exists fault aborts only its own test unit -/

lemma test_create_deployment_trace_head (c : Cluster) :
    (test_create_deployment c).2.1.head?
      = some (ApiCall.createDeploymentCall "flask" "test-namespace") := by
  rcases hc : create_namespaced_deployment c "flask" "test-namespace" with e | c1
  · simp [test_create_deployment, deploymentManifestName, hc]
  · rcases hr : read_namespaced_deployment c1 "flask" "test-namespace" with e2 | m <;>
      simp [test_create_deployment, deploymentManifestName, hc, hr]

lemma test_create_service_trace_head (c : Cluster) :
    (test_create_service c).2.1.head?
      = some (ApiCall.createServiceCall "flask" "test-namespace") := by
  rcases hc : create_namespaced_service c "flask" "test-namespace" with e | c1
  · simp [test_create_service, serviceManifestName, hc]
  · rcases hr : read_namespaced_service c1 "flask" "test-namespace" with e2 | m <;>
      simp [test_create_service, serviceManifestName, hc, hr]

lemma test_create_ingress_trace_head (c : Cluster) :
    (test_create_ingress c).2.1.head?
      = some (ApiCall.createIngressCall "flask" "test-namespace") := by
  rcases hc : create_namespaced_ingress c "flask" "test-namespace" with e | c1
  · simp [test_create_ingress, ingressManifestName, hc]
  · rcases hr : read_namespaced_ingress c1 "flask" "test-namespace" with e2 | m <;>
      simp [test_create_ingress, ingressManifestName, hc, hr]

/-- C5: when the first create call faults with already-exists (the namespace
already exists on the cluster), the fault aborts that test unit: the test's
trace is the create call alone (the read and the assertions are not
executed) and its outcome is failed — the duplicate create is not silently
accepted — while the three later test units of the class still run (each
issues its own create call). -/
theorem claim_c5_create_fault_aborts_unit (c : Cluster)
    (h : "test-namespace" ∈ c.namespaces) :
    test_create_namespace c
      = (c, [ApiCall.createNamespaceCall "test-namespace"], TestOutcome.failed)
    ∧ (runClass smoke04Class c).2.1.map (fun e => e.1)
      = ["test_create_namespace", "test_create_deployment",
         "test_create_service", "test_create_ingress"]
    ∧ (runClass smoke04Class c).2.1.map (fun e => e.2.1.head?)
      = [some (ApiCall.createNamespaceCall "test-namespace"),
         some (ApiCall.createDeploymentCall "flask" "test-namespace"),
         some (ApiCall.createServiceCall "flask" "test-namespace"),
         some (ApiCall.createIngressCall "flask" "test-namespace")] := by
  have e1 : test_create_namespace c
      = (c, [ApiCall.createNamespaceCall "test-namespace"], TestOutcome.failed) := by
    simp [test_create_namespace, create_namespace, namespaceManifestName, h]
  refine ⟨e1, ?_, ?_⟩
  · simp [runClass, smoke04Class, runTests, e1]
  · simp [runClass, smoke04Class, runTests, e1,
      test_create_deployment_trace_head, test_create_service_trace_head,
      test_create_ingress_trace_head]

/-- Witness for C5 at the cluster on which only `test-namespace` exists. -/
theorem claim_c5_witness :
    "test-namespace" ∈ nsOnlyCluster.namespaces
    ∧ (test_create_namespace nsOnlyCluster
        = (nsOnlyCluster, [ApiCall.createNamespaceCall "test-namespace"], TestOutcome.failed)
      ∧ (runClass smoke04Class nsOnlyCluster).2.1.map (fun e => e.1)
        = ["test_create_namespace", "test_create_deployment",
           "test_create_service", "test_create_ingress"]
      ∧ (runClass smoke04Class nsOnlyCluster).2.1.map (fun e => e.2.1.head?)
        = [some (ApiCall.createNamespaceCall "test-namespace"),
           some (ApiCall.createDeploymentCall "flask" "test-namespace"),
           some (ApiCall.createServiceCall "flask" "test-namespace"),
           some (ApiCall.createIngressCall "flask" "test-namespace")]) :=
  ⟨by decide, claim_c5_create_fault_aborts_unit nsOnlyCluster (by decide)⟩
